import Mathlib

/-!
# Messaging Safety Skill — rule-resolution core, shallow embedding

Shallow embedding of `src/lib/validator.ts` (class `MessageValidator`) and the
data model of `src/lib/types.ts`.  JavaScript regexes are modelled
extensionally as predicates `String → Bool`; JavaScript truthiness of optional
strings (`x || d`, `if (x)`) is modelled explicitly (empty string and absence
are both falsy).  `String.prototype.includes` is modelled as a character-list
substring test and `String.prototype.split('.')` as a character-level split.
-/

namespace MessagingSafety

/-- The `action` field: `'allow' | 'block' | 'ask'`. -/
inductive Action where
  | allow
  | block
  | ask
deriving DecidableEq, Repr

/-- Record `Destination` from `types.ts` (the `type` platform tag is renamed
`platform` since `type` is a Lean keyword). -/
structure Destination where
  id : String
  platform : String
  name : String
  description : Option String := none
  priority : Nat := 0
deriving DecidableEq, Repr

/-- Rule record `MessageTypeRule` from `types.ts`; `contentPatterns` (unused by the
validator) are modelled extensionally. -/
structure MessageTypeRule where
  allowedIn : List String
  blockedIn : List String
  requiresConfirmation : List String
  contentPatterns : Option (List (String → Bool)) := none
  reason : Option String := none

/-- Detection record `DetectionRule` from `types.ts`; each regex becomes a predicate. -/
structure DetectionRule where
  name : String
  patterns : List (String → Bool)
  classifyAs : String

/-- Default record `DefaultBehavior` from `types.ts`. -/
structure DefaultBehavior where
  action : Action
  message : Option String := none
deriving DecidableEq, Repr

/-- The `defaults` sub-record of `MessagingRules`. -/
structure Defaults where
  unknownMessageType : DefaultBehavior
  unknownDestination : DefaultBehavior
deriving DecidableEq, Repr

/-- Table record `MessagingRules` from `types.ts`: the rule table.  The two
`Record<string, _>` maps become association lists looked up by key. -/
structure MessagingRules where
  version : String
  destinations : List (String × Destination)
  messageTypes : List (String × List (String × MessageTypeRule))
  detectionRules : List DetectionRule
  defaults : Defaults
  overrideCode : String

/-- Context record `MessageContext` from `types.ts`.  `isReply?: boolean` is optional, so it
is an `Option Bool` (JS `!isReply` is true on both `false` and `undefined`);
the untyped `metadata` bag is uninterpreted string pairs. -/
structure MessageContext where
  content : String
  destination : String
  channel : String
  isReply : Option Bool := none
  threadId : Option String := none
  metadata : Option (List (String × String)) := none

/-- Result record `ValidationResult` from `types.ts`; optional fields are `none` when the
corresponding object literal in `validate` omits them. -/
structure ValidationResult where
  allowed : Bool
  action : Action
  reason : Option String := none
  messageType : Option String := none
  matchedRule : Option String := none
  suggestedDestination : Option String := none
  needsConfirmation : Option Bool := none
deriving DecidableEq, Repr

/-- Predicate `occursIn sub l`: true when `sub` is a contiguous sublist of `l`. -/
def occursIn (sub : List Char) : List Char → Bool
  | [] => sub.isEmpty
  | c :: cs => sub.isPrefixOf (c :: cs) || occursIn sub cs

/-- JS `s.includes(sub)`: `sub` occurs in `s` as a contiguous substring. -/
def strIncludes (s sub : String) : Bool :=
  occursIn sub.data s.data

/-- JS `x || d` on an optional string: absence and the empty string are both
falsy and fall through to the default. -/
def jsOrElse (o : Option String) (d : String) : String :=
  match o with
  | some s => if s = "" then d else s
  | none => d

/-- JS template interpolation of an optional string: `undefined` prints as
the literal text `"undefined"`. -/
def jsShow (o : Option String) : String :=
  o.getD "undefined"

/-- JS `s.substring(0, n)` (character-level model). -/
def strTake (s : String) (n : Nat) : String :=
  ⟨s.data.take n⟩

/-- Accumulator loop behind JS `String.prototype.split(sep)` for a
one-character separator. -/
def splitAux (sep : Char) : List Char → List Char → List (List Char)
  | [], acc => [acc.reverse]
  | c :: cs, acc =>
    if c == sep then acc.reverse :: splitAux sep cs []
    else splitAux sep cs (c :: acc)

/-- JS `s.split(sep)` for a one-character separator: never returns an empty
array; `""` splits to `[""]`. -/
def jsSplit (s : String) (sep : Char) : List String :=
  (splitAux sep s.data []).map String.mk

/-- JS `s.toLowerCase()` modelled character by character (`Char.toLower`
agrees with JS on the ASCII keywords the validator looks for). -/
def strToLower (s : String) : String :=
  ⟨s.data.map Char.toLower⟩

/-- Keyword fallback of `detectMessageType` (`validator.ts` lines 30–44):
fixed keyword checks over the lower-cased content, first match wins. -/
def detectFallback (content : String) : String :=
  let lowerContent := strToLower content
  if strIncludes lowerContent "digest" || strIncludes lowerContent "🦾" then
    "digest.*"
  else if strIncludes lowerContent "reminder" || strIncludes lowerContent "don\x27t forget" then
    "reminder.*"
  else if strIncludes lowerContent "replying to" || strIncludes lowerContent "in response to" then
    "reply.*"
  else if strIncludes lowerContent "revenue" || strIncludes lowerContent "business" then
    "business.*"
  else
    "unknown"

/-- Inner loop of `detectMessageType`: `for (const pattern of rule.patterns)
if (pattern.test(content)) return ...` — true when some pattern matches. -/
def patternLoop (content : String) : List (String → Bool) → Bool
  | [] => false
  | p :: ps => if p content then true else patternLoop content ps

/-- Outer loop of `detectMessageType`: first detection rule (in table order)
with a matching pattern yields its `classifyAs` immediately. -/
def ruleLoop (content : String) : List DetectionRule → Option String
  | [] => none
  | r :: rs => if patternLoop content r.patterns then some r.classifyAs else ruleLoop content rs

/-- Embedding of `MessageValidator.detectMessageType` (`validator.ts` lines 18–45). -/
def detectMessageType (rules : MessagingRules) (content : String) : String :=
  match ruleLoop content rules.detectionRules with
  | some t => t
  | none => detectFallback content

/-- Embedding of `MessageValidator.parseMessageType` (`validator.ts` lines 50–56):
`const parts = typePath.split('.')` then `parts[0]` / `parts[1] || '*'`
(JS: a missing or empty second part is falsy and falls back to `'*'`). -/
def parseMessageType (typePath : String) : String × String :=
  let parts := jsSplit typePath '.'
  (parts.headD "",
   match parts.drop 1 with
   | [] => "*"
   | s :: _ => if s = "" then "*" else s)

/-- Embedding of `MessageValidator.findRule` (`validator.ts` lines 62–79). -/
def findRule (rules : MessagingRules) (typePath : String) : Option MessageTypeRule :=
  let category := (parseMessageType typePath).1
  let subtype := (parseMessageType typePath).2
  match List.lookup category rules.messageTypes with
  | none => none
  | some categoryRules =>
    match (if subtype = "*" then none else List.lookup subtype categoryRules) with
    | some r => some r
    | none => List.lookup "*" categoryRules

/-- Embedding of `MessageValidator.matchesDestination` (`validator.ts` lines 85–88). -/
def matchesDestination (destId pat : String) : Bool :=
  if pat = "*" then true else destId == pat

/-- Embedding of `MessageValidator.isDestinationInList` (`validator.ts` lines 93–95). -/
def isDestinationInList (destId : String) (list : List String) : Bool :=
  list.any fun pat => matchesDestination destId pat

/-- Embedding of `MessageValidator.getDestinationName` (`validator.ts` lines 100–103):
`dest?.name || destId` (an empty display name is falsy in JS). -/
def getDestinationName (rules : MessagingRules) (destId : String) : String :=
  match List.lookup destId rules.destinations with
  | some dest => if dest.name = "" then destId else dest.name
  | none => destId

/-- Embedding of `MessageValidator.validate` (`validator.ts` lines 108–192). -/
def validate (rules : MessagingRules) (context : MessageContext) : ValidationResult :=
  if strIncludes context.content rules.overrideCode then
    { allowed := true
      action := Action.allow
      reason := some "Override code used" }
  else
    let detectedType := detectMessageType rules context.content
    let category := (parseMessageType detectedType).1
    let subtype := (parseMessageType detectedType).2
    match findRule rules detectedType with
    | none =>
      { allowed := false
        action := rules.defaults.unknownMessageType.action
        reason := some ("No rules for message type: " ++ detectedType)
        messageType := some detectedType
        needsConfirmation := some true }
    | some rule =>
      if (List.lookup context.destination rules.destinations).isNone then
        { allowed := false
          action := rules.defaults.unknownDestination.action
          reason := some ("Unknown destination: " ++ context.destination)
          messageType := some detectedType
          needsConfirmation := some true }
      else if isDestinationInList context.destination rule.blockedIn then
        { allowed := false
          action := Action.block
          reason := some (jsOrElse rule.reason
            (detectedType ++ " is blocked in " ++ getDestinationName rules context.destination))
          messageType := some detectedType
          matchedRule := some (category ++ "." ++ subtype)
          suggestedDestination := rule.allowedIn.head?
          needsConfirmation := some true }
      else if !(context.isReply.getD false) &&
          isDestinationInList context.destination rule.requiresConfirmation then
        { allowed := false
          action := Action.ask
          reason := some (getDestinationName rules context.destination
            ++ " requires confirmation for " ++ detectedType)
          messageType := some detectedType
          matchedRule := some (category ++ "." ++ subtype)
          needsConfirmation := some true }
      else if isDestinationInList context.destination rule.allowedIn then
        { allowed := true
          action := Action.allow
          messageType := some detectedType
          matchedRule := some (category ++ "." ++ subtype) }
      else
        { allowed := false
          action := Action.ask
          reason := some (detectedType ++ " not explicitly allowed in "
            ++ getDestinationName rules context.destination)
          messageType := some detectedType
          needsConfirmation := some true }

/-- Template part of `formatConfirmation` (`validator.ts` lines 197–216),
abstracted over the already-built content preview; `${...}` interpolation of
possibly-undefined fields and the truthiness test on `suggestedDestination`
are modelled explicitly. -/
def confirmTemplate (rules : MessagingRules) (context : MessageContext)
    (result : ValidationResult) (preview : String) : String :=
  let destName := getDestinationName rules context.destination
  let base := "⚠️ **Send Confirmation Required**\n\n"
    ++ "**To:** " ++ destName ++ "\n"
    ++ "**Type:** " ++ jsShow result.messageType ++ "\n"
    ++ "**Reason:** " ++ jsShow result.reason ++ "\n\n"
    ++ "**Message:**\n" ++ preview ++ "\n\n"
  let withSuggested :=
    match result.suggestedDestination with
    | some s =>
      if s = "" then base
      else base ++ "**Suggested:** " ++ getDestinationName rules s ++ "\n\n"
    | none => base
  withSuggested ++ "Reply **YES** to send, **NO** to cancel."

/-- Embedding of `MessageValidator.formatConfirmation` (`validator.ts` lines 197–216):
`context.content.substring(0, 100) + (context.content.length > 100 ? '...' : '')`. -/
def formatConfirmation (rules : MessagingRules) (context : MessageContext)
    (result : ValidationResult) : String :=
  let preview := strTake context.content 100
    ++ (if 100 < context.content.length then "..." else "")
  confirmTemplate rules context result preview

/-! ## Basic lemmas -/

/-- The empty character list occurs in every character list. -/
theorem occursIn_nil (l : List Char) : occursIn [] l = true := by
  cases l <;> rfl

/-- Every string contains the empty string as a substring (JS
`s.includes("")` is always true). -/
theorem strIncludes_empty (s : String) : strIncludes s "" = true :=
  occursIn_nil s.data

/-- Shared helper: when the content contains the override code, `validate`
returns the override result. -/
theorem validate_override_core (rules : MessagingRules) (context : MessageContext)
    (h : strIncludes context.content rules.overrideCode = true) :
    validate rules context =
      { allowed := true, action := Action.allow, reason := some "Override code used" } := by
  unfold validate
  simp [h]

/-! ## Concrete example table (used by witnesses) -/

/-- Example destination: the boss's direct chat. -/
def bossDM : Destination :=
  { id := "boss_dm", platform := "telegram", name := "Boss DM", priority := 1 }

/-- Example destination: a work group chat. -/
def workGroup : Destination :=
  { id := "work_group", platform := "slack", name := "Work Group", priority := 2 }

/-- Example exact-subtype rule for `digest.reddit`. -/
def redditRule : MessageTypeRule :=
  { allowedIn := ["boss_dm"], blockedIn := [], requiresConfirmation := ["work_group"] }

/-- Example wildcard rule for `digest.*`, blocking the work group. -/
def digestWildRule : MessageTypeRule :=
  { allowedIn := ["boss_dm", "work_group"], blockedIn := ["work_group"],
    requiresConfirmation := [], reason := some "digests are private" }

/-- Example wildcard rule for the `unknown` category. -/
def unknownWildRule : MessageTypeRule :=
  { allowedIn := [], blockedIn := [], requiresConfirmation := [] }

/-- Example category mapping for `digest`: an exact `reddit` subtype next to
a `*` wildcard. -/
def exDigestCat : List (String × MessageTypeRule) :=
  [("reddit", redditRule), ("*", digestWildRule)]

/-- Example rule table: two destinations, a `digest` category with an exact
`reddit` subtype and a `*` wildcard, an `unknown` category, one detection
rule, and an `allow`/`block` pair of defaults. -/
def exRules : MessagingRules :=
  { version := "1.0.0"
    destinations := [("boss_dm", bossDM), ("work_group", workGroup)]
    messageTypes :=
      [("digest", exDigestCat),
       ("unknown", [("*", unknownWildRule)])]
    detectionRules :=
      [{ name := "reddit-links", patterns := [fun s => strIncludes s "r/"],
         classifyAs := "digest.reddit" }]
    defaults :=
      { unknownMessageType := { action := Action.allow }
        unknownDestination := { action := Action.block } }
    overrideCode := "BOSS_OVERRIDE" }

/-! ## C1 / C10: the override branch -/

/-- C1: for every rule table and every context whose content contains the
table's override code as a literal substring, `validate` returns
`allowed = true`, `action = allow`, `reason = "Override code used"`, with all
other fields unset — independent of destination, message type, or any
classification, rule lookup, or destination check. -/
theorem c1_validate_override (rules : MessagingRules) (context : MessageContext)
    (h : strIncludes context.content rules.overrideCode = true) :
    validate rules context =
      { allowed := true, action := Action.allow, reason := some "Override code used" } :=
  validate_override_core rules context h

/-- Witness for C1 at a concrete table and context. -/
theorem c1_witness :
    strIncludes "BOSS_OVERRIDE please" exRules.overrideCode = true ∧
    validate exRules
        { content := "BOSS_OVERRIDE please", destination := "nowhere", channel := "telegram" } =
      { allowed := true, action := Action.allow, reason := some "Override code used" } :=
  ⟨by decide,
   c1_validate_override exRules
     { content := "BOSS_OVERRIDE please", destination := "nowhere", channel := "telegram" }
     (by decide)⟩

/-- C10: if the table's override code is the empty string, then for every
context `validate` returns the override result — every content string
contains the empty string as a substring, so the override branch always
fires and nothing else is ever reached. -/
theorem c10_empty_override (rules : MessagingRules) (context : MessageContext)
    (h : rules.overrideCode = "") :
    validate rules context =
      { allowed := true, action := Action.allow, reason := some "Override code used" } :=
  validate_override_core rules context (by rw [h]; exact strIncludes_empty context.content)

/-- Witness for C10 at a concrete table with an empty override code. -/
theorem c10_witness :
    ({ exRules with overrideCode := "" } : MessagingRules).overrideCode = "" ∧
    validate { exRules with overrideCode := "" }
        { content := "quarterly revenue report", destination := "work_group", channel := "slack" } =
      { allowed := true, action := Action.allow, reason := some "Override code used" } :=
  ⟨rfl,
   c10_empty_override { exRules with overrideCode := "" }
     { content := "quarterly revenue report", destination := "work_group", channel := "slack" }
     rfl⟩

/-! ## C4: unknown message type uses the configured default action -/

/-- C4: whenever the override code is absent from the content and `findRule`
returns no rule for the detected type, `validate` returns `allowed = false`
(regardless of the configured default action), `action` equal to the table's
`unknownMessageType` default action exactly, a reason naming the unmatched
type, and `needsConfirmation = true`. -/
theorem c4_unknown_type_default (rules : MessagingRules) (context : MessageContext)
    (hov : strIncludes context.content rules.overrideCode = false)
    (hrule : findRule rules (detectMessageType rules context.content) = none) :
    validate rules context =
      { allowed := false
        action := rules.defaults.unknownMessageType.action
        reason := some ("No rules for message type: " ++ detectMessageType rules context.content)
        messageType := some (detectMessageType rules context.content)
        needsConfirmation := some true } := by
  unfold validate
  simp [hov, hrule]

/-- Witness for C4: a table whose unknown-type default action is `allow`
still yields `allowed = false` with `action = allow`. -/
theorem c4_witness :
    strIncludes "reminder: gym" exRules.overrideCode = false ∧
    findRule exRules (detectMessageType exRules "reminder: gym") = none ∧
    validate exRules { content := "reminder: gym", destination := "boss_dm", channel := "telegram" } =
      { allowed := false
        action := Action.allow
        reason := some "No rules for message type: reminder.*"
        messageType := some "reminder.*"
        needsConfirmation := some true } :=
  ⟨by decide, rfl,
   c4_unknown_type_default exRules
     { content := "reminder: gym", destination := "boss_dm", channel := "telegram" }
     (by decide) rfl⟩

/-! ## C2: unknown destination after a rule is found -/

/-- C2: for a context with content `"weekly summary"` where the override code
is absent, no detection rule matches (so the keyword fallback classifies it as
`unknown`), `findRule` returns a rule for `"unknown"`, and the destination is
absent from the table's destinations mapping, `validate` returns
`allowed = false`, `action` equal to the `unknownDestination` default action,
and `needsConfirmation = true`; the branch is reached only with a found rule
in hand. -/
theorem c2_unknown_destination (rules : MessagingRules) (context : MessageContext)
    (r : MessageTypeRule)
    (hcontent : context.content = "weekly summary")
    (hov : strIncludes context.content rules.overrideCode = false)
    (hdet : ruleLoop context.content rules.detectionRules = none)
    (hrule : findRule rules "unknown" = some r)
    (hdest : List.lookup context.destination rules.destinations = none) :
    validate rules context =
      { allowed := false
        action := rules.defaults.unknownDestination.action
        reason := some ("Unknown destination: " ++ context.destination)
        messageType := some "unknown"
        needsConfirmation := some true } := by
  have hdt : detectMessageType rules context.content = "unknown" := by
    unfold detectMessageType
    rw [hdet, hcontent]
    decide
  unfold validate
  simp [hov, hdt, hrule, hdest]

/-- Witness for C2 at a concrete table and destination. -/
theorem c2_witness :
    strIncludes "weekly summary" exRules.overrideCode = false ∧
    ruleLoop "weekly summary" exRules.detectionRules = none ∧
    findRule exRules "unknown" = some unknownWildRule ∧
    List.lookup "mystery_chat" exRules.destinations = none ∧
    validate exRules { content := "weekly summary", destination := "mystery_chat", channel := "telegram" } =
      { allowed := false
        action := Action.block
        reason := some "Unknown destination: mystery_chat"
        messageType := some "unknown"
        needsConfirmation := some true } :=
  ⟨by decide, by decide, rfl, by decide,
   c2_unknown_destination exRules
     { content := "weekly summary", destination := "mystery_chat", channel := "telegram" }
     unknownWildRule rfl (by decide) (by decide) rfl (by decide)⟩

/-! ## C3: the blocked branch -/

/-- Amended C3: when the override code is absent, a rule is matched, the
destination is known, and the destination matches a pattern in both the
rule's `blockedIn` and `allowedIn` lists, `validate` returns the blocked
outcome — `allowed = false`, `action = block`, reason equal to the rule's
reason when present and nonempty (JS `||`: an empty-string reason is falsy
and falls back to the generated message), `matchedRule = "category.subtype"`,
`needsConfirmation = true`, and `suggestedDestination` the first entry of
`allowedIn` (absent when that list is empty); the block branch precedes the
confirmation and allow branches. -/
theorem c3_blocked_precedes_allow (rules : MessagingRules) (context : MessageContext)
    (rule : MessageTypeRule)
    (hov : strIncludes context.content rules.overrideCode = false)
    (hrule : findRule rules (detectMessageType rules context.content) = some rule)
    (hdest : (List.lookup context.destination rules.destinations).isNone = false)
    (hblocked : isDestinationInList context.destination rule.blockedIn = true)
    (_hallowed : isDestinationInList context.destination rule.allowedIn = true) :
    validate rules context =
      { allowed := false
        action := Action.block
        reason := some (jsOrElse rule.reason
          (detectMessageType rules context.content ++ " is blocked in "
            ++ getDestinationName rules context.destination))
        messageType := some (detectMessageType rules context.content)
        matchedRule := some ((parseMessageType (detectMessageType rules context.content)).1
          ++ "." ++ (parseMessageType (detectMessageType rules context.content)).2)
        suggestedDestination := rule.allowedIn.head?
        needsConfirmation := some true } := by
  unfold validate
  simp [hov, hrule, hdest, hblocked]

/-- Witness for the amended C3: the digest wildcard rule lists `work_group`
in both `blockedIn` and `allowedIn`, and the block outcome wins. -/
theorem c3_witness :
    isDestinationInList "work_group" digestWildRule.blockedIn = true ∧
    isDestinationInList "work_group" digestWildRule.allowedIn = true ∧
    validate exRules { content := "digest time", destination := "work_group", channel := "slack" } =
      { allowed := false
        action := Action.block
        reason := some "digests are private"
        messageType := some "digest.*"
        matchedRule := some "digest.*"
        suggestedDestination := some "boss_dm"
        needsConfirmation := some true } :=
  ⟨by decide, by decide,
   c3_blocked_precedes_allow exRules
     { content := "digest time", destination := "work_group", channel := "slack" }
     digestWildRule (by decide) (by rfl) (by decide) (by decide) (by decide)⟩

/-- Rule with a present but empty `reason`, for the C3 counterexample. -/
def emptyReasonRule : MessageTypeRule :=
  { allowedIn := ["work_group"], blockedIn := ["work_group"],
    requiresConfirmation := [], reason := some "" }

/-- Table for the C3 counterexample: the `digest.*` rule carries
`reason = ""`. -/
def cexRules : MessagingRules :=
  { exRules with
    messageTypes := [("digest", [("*", emptyReasonRule)])]
    detectionRules := [] }

/-- Counterexample to C3 as stated: here the matched rule's `reason` is
present (`some ""`) and the destination is in both lists, yet `validate`
does not return that reason — JS `rule.reason || …` treats the empty string
as falsy and substitutes the generated message. -/
theorem c3_counterexample :
    emptyReasonRule.reason = some "" ∧
    findRule cexRules (detectMessageType cexRules "digest time") = some emptyReasonRule ∧
    isDestinationInList "work_group" emptyReasonRule.blockedIn = true ∧
    isDestinationInList "work_group" emptyReasonRule.allowedIn = true ∧
    (validate cexRules { content := "digest time", destination := "work_group", channel := "slack" }).reason =
      some "digest.* is blocked in Work Group" ∧
    ¬ (validate cexRules { content := "digest time", destination := "work_group", channel := "slack" }).reason =
      some "" :=
  ⟨rfl, by rfl, by decide, by decide, by decide, by decide⟩

/-! ## C9: allowed results -/

/-- C9: every result of `validate` with `allowed = true` has `action = allow`
and its `needsConfirmation` field unset; and the converse fails — a concrete
table whose unknown-type default is `allow` yields `action = allow` with
`allowed = false`. -/
theorem c9_allowed_invariant :
    (∀ (rules : MessagingRules) (context : MessageContext),
      (validate rules context).allowed = true →
        (validate rules context).action = Action.allow ∧
        (validate rules context).needsConfirmation = none) ∧
    ((validate exRules { content := "reminder: gym", destination := "boss_dm", channel := "telegram" }).action
        = Action.allow ∧
     (validate exRules { content := "reminder: gym", destination := "boss_dm", channel := "telegram" }).allowed
        = false) := by
  constructor
  · intro rules context
    unfold validate
    dsimp only
    repeat' split
    all_goals intro h
    all_goals first
      | exact ⟨rfl, rfl⟩
      | simp at h
  · exact ⟨by decide, by decide⟩

/-- Witness for C9: a concrete allowed send has action `allow` and no
`needsConfirmation` field. -/
theorem c9_witness :
    (validate exRules { content := "digest r/lean", destination := "boss_dm", channel := "t" }).allowed
      = true ∧
    (validate exRules { content := "digest r/lean", destination := "boss_dm", channel := "t" }).action
      = Action.allow ∧
    (validate exRules { content := "digest r/lean", destination := "boss_dm", channel := "t" }).needsConfirmation
      = none :=
  ⟨by decide,
   (c9_allowed_invariant.1 exRules
     { content := "digest r/lean", destination := "boss_dm", channel := "t" } (by decide)).1,
   (c9_allowed_invariant.1 exRules
     { content := "digest r/lean", destination := "boss_dm", channel := "t" } (by decide)).2⟩

/-! ## C7: rule lookup, exact subtype beats wildcard -/

/-- C7: when the category of a type path is absent from the table `findRule`
returns none; when it is present, an exact non-`*` subtype entry is returned
even if a `*` entry also exists, and otherwise the category's `*` entry (or
none) is the result. -/
theorem c7_findRule_spec (rules : MessagingRules) (path : String)
    (cr : List (String × MessageTypeRule)) (r : MessageTypeRule) :
    (List.lookup (parseMessageType path).1 rules.messageTypes = none →
      findRule rules path = none) ∧
    (List.lookup (parseMessageType path).1 rules.messageTypes = some cr →
      ((parseMessageType path).2 ≠ "*" →
        List.lookup (parseMessageType path).2 cr = some r →
        findRule rules path = some r) ∧
      ((parseMessageType path).2 = "*" ∨ List.lookup (parseMessageType path).2 cr = none →
        findRule rules path = List.lookup "*" cr)) := by
  constructor
  · intro h
    unfold findRule
    simp [h]
  · intro hcr
    constructor
    · intro hs hlook
      unfold findRule
      simp [hcr, hs, hlook]
    · intro hdisj
      unfold findRule
      rcases hdisj with hstar | hnone
      · simp [hcr, hstar]
      · by_cases hs : (parseMessageType path).2 = "*" <;> simp [hcr, hs, hnone]

/-- Witness for C7: `digest.reddit` resolves to the exact `reddit` rule even
though a `digest.*` wildcard rule exists in the same category. -/
theorem c7_witness :
    List.lookup (parseMessageType "digest.reddit").1 exRules.messageTypes = some exDigestCat ∧
    (parseMessageType "digest.reddit").2 ≠ "*" ∧
    List.lookup (parseMessageType "digest.reddit").2 exDigestCat = some redditRule ∧
    List.lookup "*" exDigestCat = some digestWildRule ∧
    findRule exRules "digest.reddit" = some redditRule :=
  ⟨by rfl, by decide, by rfl, by rfl,
   ((c7_findRule_spec exRules "digest.reddit" exDigestCat redditRule).2 (by rfl)).1
     (by decide) (by rfl)⟩

/-! ## C5: parseMessageType -/

/-- Characterization of the split loop: the first chunk is the pending
accumulator followed by the longest separator-free prefix, and the remaining
chunks restart after the first separator. -/
theorem splitAux_eq (sep : Char) (l : List Char) : ∀ acc : List Char,
    splitAux sep l acc =
      (acc.reverse ++ l.takeWhile fun c => !(c == sep)) ::
        (match l.dropWhile (fun c => !(c == sep)) with
         | [] => []
         | _ :: r => splitAux sep r []) := by
  induction l with
  | nil => intro acc; simp [splitAux]
  | cons c cs ih =>
    intro acc
    by_cases h : (c == sep) = true
    · simp [splitAux, h, List.takeWhile_cons, List.dropWhile_cons]
    · simp only [splitAux, h, if_false, Bool.false_eq_true, ite_false, List.takeWhile_cons,
        List.dropWhile_cons, Bool.not_eq_true', Bool.not_false, if_true, ite_true]
      rw [ih (c :: acc)]
      simp

/-- C5 (amended): `parseMessageType` splits on every `'.'`; the category is
the longest dot-free prefix, and the subtype is the dot-free segment right
after the first `'.'` — defaulting to `"*"` when there is no dot or that
segment is empty.  `"unknown"` parses to `("unknown", "*")`, and a path with
more than one dot such as `"a.b.c"` yields only the middle segment `"b"` as
the subtype, not the entire remainder. -/
theorem c5_parse_spec :
    (∀ p : String,
      parseMessageType p =
        (String.mk (p.data.takeWhile fun c => !(c == '.')),
         match p.data.dropWhile (fun c => !(c == '.')) with
         | [] => "*"
         | _ :: r =>
           if r.takeWhile (fun c => !(c == '.')) = [] then "*"
           else String.mk (r.takeWhile fun c => !(c == '.')))) ∧
    parseMessageType "unknown" = ("unknown", "*") ∧
    parseMessageType "a.b.c" = ("a", "b") := by
  refine ⟨?_, by decide, by decide⟩
  intro p
  unfold parseMessageType jsSplit
  rw [splitAux_eq '.' p.data []]
  cases hdw : p.data.dropWhile (fun c => !(c == '.')) with
  | nil => simp
  | cons d r =>
    dsimp only
    rw [splitAux_eq '.' r []]
    by_cases hr : r.takeWhile (fun c => !(c == '.')) = [] <;>
      simp [hr, String.ext_iff]

/-- Counterexample to C5 as stated: the subtype of `"a.b.c"` is not the
entire remainder `"b.c"` after the first dot — JS `split('.')` cuts at every
dot and `parts[1]` is just `"b"`. -/
theorem c5_counterexample : ¬ parseMessageType "a.b.c" = ("a", "b.c") := by decide

/-! ## C6: detection-rule precedence over keyword fallback -/

/-- The inner pattern loop is `List.any`. -/
theorem patternLoop_eq_any (content : String) (ps : List (String → Bool)) :
    patternLoop content ps = ps.any fun p => p content := by
  induction ps with
  | nil => rfl
  | cons p ps ih => by_cases h : p content <;> simp [patternLoop, h, ih]

/-- The outer detection loop returns the `classifyAs` of the first rule
(in table order) with a matching pattern. -/
theorem ruleLoop_eq_find (content : String) (rs : List DetectionRule) :
    ruleLoop content rs =
      (rs.find? fun r => r.patterns.any fun p => p content).map DetectionRule.classifyAs := by
  induction rs with
  | nil => rfl
  | cons r rs ih =>
    by_cases h : (r.patterns.any fun p => p content) = true
    · rw [List.find?_cons_of_pos rs h]
      simp [ruleLoop, patternLoop_eq_any, h]
    · rw [List.find?_cons_of_neg rs h]
      simp only [ruleLoop, patternLoop_eq_any]
      simp [h, ih]

/-- C6: `detectMessageType` returns the `classifyAs` of the first detection
rule (table order) with a matching pattern, never consulting the fallback in
that case; with no matching rule, the keyword fallback applies in the fixed
precedence digest → reminder → reply → business over the lower-cased
content, first match winning, and `"unknown"` results when none match. -/
theorem c6_detect_precedence :
    (∀ (rules : MessagingRules) (content : String),
      detectMessageType rules content =
        match rules.detectionRules.find? (fun r => r.patterns.any fun p => p content) with
        | some r => r.classifyAs
        | none => detectFallback content) ∧
    (∀ content : String,
      (strIncludes (strToLower content) "digest"
        || strIncludes (strToLower content) "🦾") = true →
      detectFallback content = "digest.*") ∧
    (∀ content : String,
      (strIncludes (strToLower content) "digest"
        || strIncludes (strToLower content) "🦾") = false →
      (strIncludes (strToLower content) "reminder"
        || strIncludes (strToLower content) "don\x27t forget") = true →
      detectFallback content = "reminder.*") ∧
    (∀ content : String,
      (strIncludes (strToLower content) "digest"
        || strIncludes (strToLower content) "🦾") = false →
      (strIncludes (strToLower content) "reminder"
        || strIncludes (strToLower content) "don\x27t forget") = false →
      (strIncludes (strToLower content) "replying to"
        || strIncludes (strToLower content) "in response to") = true →
      detectFallback content = "reply.*") ∧
    (∀ content : String,
      (strIncludes (strToLower content) "digest"
        || strIncludes (strToLower content) "🦾") = false →
      (strIncludes (strToLower content) "reminder"
        || strIncludes (strToLower content) "don\x27t forget") = false →
      (strIncludes (strToLower content) "replying to"
        || strIncludes (strToLower content) "in response to") = false →
      (strIncludes (strToLower content) "revenue"
        || strIncludes (strToLower content) "business") = true →
      detectFallback content = "business.*") ∧
    (∀ content : String,
      (strIncludes (strToLower content) "digest"
        || strIncludes (strToLower content) "🦾") = false →
      (strIncludes (strToLower content) "reminder"
        || strIncludes (strToLower content) "don\x27t forget") = false →
      (strIncludes (strToLower content) "replying to"
        || strIncludes (strToLower content) "in response to") = false →
      (strIncludes (strToLower content) "revenue"
        || strIncludes (strToLower content) "business") = false →
      detectFallback content = "unknown") := by
  refine ⟨?_, ?_, ?_, ?_, ?_, ?_⟩
  · intro rules content
    unfold detectMessageType
    rw [ruleLoop_eq_find]
    cases rules.detectionRules.find? fun r => r.patterns.any fun p => p content <;> rfl
  · intro content h
    unfold detectFallback
    simp [h]
  · intro content h1 h2
    unfold detectFallback
    simp [h1, h2]
  · intro content h1 h2 h3
    unfold detectFallback
    simp [h1, h2, h3]
  · intro content h1 h2 h3 h4
    unfold detectFallback
    simp [h1, h2, h3, h4]
  · intro content h1 h2 h3 h4
    unfold detectFallback
    simp [h1, h2, h3, h4]

/-- Witness for C6: a content matching both the configured detection rule
and the digest keyword classifies via the detection rule. -/
theorem c6_witness :
    strIncludes (strToLower "digest r/lean") "digest" = true ∧
    detectMessageType exRules "digest r/lean" = "digest.reddit" ∧
    detectFallback "digest r/lean" = "digest.*" :=
  ⟨by decide,
   by rw [c6_detect_precedence.1 exRules "digest r/lean"]; decide,
   c6_detect_precedence.2.1 "digest r/lean" (by decide)⟩

/-! ## C8: confirmation preview truncation -/

/-- The empty string has length zero. -/
theorem length_empty_str : ("" : String).length = 0 := rfl

/-- Taking at least the whole string returns it unchanged. -/
theorem strTake_of_le (s : String) (n : Nat) (h : s.length ≤ n) : strTake s n = s := by
  rcases s with ⟨data⟩
  unfold strTake
  rw [String.ext_iff]
  exact List.take_of_length_le h

/-- The confirmation template's length is its fixed-plus-fields overhead
(the template at an empty preview) plus the preview's length. -/
theorem confirmTemplate_length (rules : MessagingRules) (context : MessageContext)
    (result : ValidationResult) (p : String) :
    (confirmTemplate rules context result p).length =
      (confirmTemplate rules context result "").length + p.length := by
  unfold confirmTemplate
  cases hs : result.suggestedDestination with
  | none =>
    simp only [String.length_append, length_empty_str]
    omega
  | some s =>
    by_cases h : s = "" <;>
      simp only [h, if_true, if_false, ite_true, ite_false, String.length_append,
        length_empty_str] <;>
      omega

/-- C8: `formatConfirmation` embeds the content verbatim as the preview when
it is at most 100 characters; beyond 100 characters it embeds exactly the
first 100 characters followed by `"..."`, and the output length is then
exactly the template overhead (the template with an empty preview) plus
100 content characters plus the 3-character ellipsis marker. -/
theorem c8_confirmation_preview :
    (∀ (rules : MessagingRules) (context : MessageContext) (result : ValidationResult),
      context.content.length ≤ 100 →
        formatConfirmation rules context result =
          confirmTemplate rules context result context.content) ∧
    (∀ (rules : MessagingRules) (context : MessageContext) (result : ValidationResult),
      100 < context.content.length →
        formatConfirmation rules context result =
          confirmTemplate rules context result (strTake context.content 100 ++ "...") ∧
        (formatConfirmation rules context result).length =
          (confirmTemplate rules context result "").length + 103) := by
  constructor
  · intro rules context result h
    unfold formatConfirmation
    rw [if_neg (by omega : ¬ 100 < context.content.length), String.append_empty,
      strTake_of_le context.content 100 h]
  · intro rules context result h
    unfold formatConfirmation
    rw [if_pos h]
    refine ⟨rfl, ?_⟩
    rw [confirmTemplate_length]
    have hd : 100 < context.content.data.length := h
    have ht : (strTake context.content 100 ++ ("..." : String)).length = 103 := by
      rw [String.length_append]
      have h100 : (strTake context.content 100).length = 100 := by
        show (context.content.data.take 100).length = 100
        rw [List.length_take, min_eq_left (Nat.le_of_lt hd)]
      rw [h100]
      rfl
    rw [ht]

/-- Witness for C8 at a short concrete content. -/
theorem c8_witness :
    ("hi" : String).length ≤ 100 ∧
    formatConfirmation exRules { content := "hi", destination := "boss_dm", channel := "t" }
        { allowed := false, action := Action.ask } =
      confirmTemplate exRules { content := "hi", destination := "boss_dm", channel := "t" }
        { allowed := false, action := Action.ask } "hi" :=
  ⟨by decide,
   c8_confirmation_preview.1 exRules
     { content := "hi", destination := "boss_dm", channel := "t" }
     { allowed := false, action := Action.ask } (by decide)⟩

end MessagingSafety
